import Mathlib

/-
Verification development for build_tiles.py, a utility that downloads an
OSM extract and a Planetiler release, then runs Planetiler as a child
process to render a compact tile archive.

Shallow embedding conventions:
* Paths are strings; `pathlib.Path` operations (`.parent`, `.name`, `/`)
  are modelled on lists of path components (splitting on "/", dropping
  empty and "." components, as `Path` normalisation does).  `pathlib`'s
  eager string normalisation at construction time is not modelled: paths
  are compared through `normPath`.
* The filesystem is an explicit record of existing directories and of
  files with their byte contents (bytes as `List Nat`).
* The network is an association list from URL to `some content`
  (retrieval succeeds with those bytes) or `none` (transport error,
  i.e. `urlretrieve` raises).  A URL absent from the list also denotes a
  transport error.
* Side effects are recorded in a `World`: filesystem, stdout lines,
  stderr lines, and a trace of observable events (mkdir calls, network
  retrievals, child-process spawns).
* The child process is a parameter `ChildBehavior` mapping the spawned
  command line and environment to the exit code the child returns.
* Python exceptions are an `Except PyErr` result threaded explicitly:
  `PyErr.transport` for `urlretrieve` failures, `PyErr.calledProcess`
  for `subprocess.CalledProcessError` (raised by `subprocess.run` with
  `check=True` on a non-zero exit code).
* The `__main__` guard is `topLevel`, returning the final `World` and an
  `Outcome`: `exited code` for a normal `sys.exit`/fall-through, or
  `uncaught e` for an exception that no handler catches (abnormal
  termination).
* In `download`'s completion message the real script prints the size in
  megabytes with float formatting; the model reports the byte count
  (floating point is out of scope; no claim depends on that text).
-/

/-- Split a character list at every '/' (structurally recursive so
that concrete runs reduce inside the kernel). -/
def splitSlash : List Char → List Char → List String
  | [], acc => [String.mk acc.reverse]
  | c :: rest, acc =>
      if c = '/' then String.mk acc.reverse :: splitSlash rest []
      else splitSlash rest (c :: acc)

/-- Does the path start with '/'? (`pathlib` absolute paths). -/
def isAbsolute (p : String) : Bool :=
  match p.data with
  | '/' :: _ => true
  | _ => false

/-- Path components in the sense of `pathlib.PurePath.parts` (for
relative segments): split on "/", dropping empty and "." segments. -/
def pathComponents (p : String) : List String :=
  (splitSlash p.data []).filter (fun c => c != "" && c != ".")

/-- Components re-joined with "/". -/
def joinComps (cs : List String) : String :=
  String.intercalate "/" cs

/-- Normal form of a path: components re-joined with "/", keeping a
leading "/" for absolute paths. -/
def normPath (p : String) : String :=
  (if isAbsolute p then "/" else "") ++ joinComps (pathComponents p)

/-- `pathlib.Path(p).parent`. -/
def pathParent (p : String) : String :=
  let cs := pathComponents p
  let root := if isAbsolute p then "/" else ""
  if cs.length ≤ 1 then (if isAbsolute p then "/" else ".")
  else root ++ joinComps cs.dropLast

/-- `pathlib.Path(p).name`: the final path component ("" if none). -/
def pathName (p : String) : String :=
  ((pathComponents p).getLast?).getD ""

/-- `pathlib` `/` (joinpath): an absolute right operand replaces the
left; `Path(".") / b` is `b`. -/
def joinPath (a b : String) : String :=
  if isAbsolute b then b
  else if a = "" || a = "." then b
  else a ++ "/" ++ b

/-- All non-empty initial segments of a component list (used to model
`mkdir(parents=True)`, which creates every ancestor). -/
def initialSegs : List String → List (List String)
  | [] => []
  | c :: rest => [c] :: (initialSegs rest).map (fun cs => c :: cs)

/-- Filesystem state: existing directories (in `normPath` form) and
files with contents (keys in `normPath` form). -/
structure FS where
  dirs : List String
  files : List (String × List Nat)
deriving DecidableEq

/-- First-match lookup in an association list. -/
def lookupA {α : Type} : List (String × α) → String → Option α
  | [], _ => none
  | (k, v) :: rest, key => if k = key then some v else lookupA rest key

/-- `path.mkdir(parents=True, exist_ok=True)`: record the directory and
all of its ancestors as existing. -/
def FS.mkdirAll (fs : FS) (p : String) : FS :=
  let root := if isAbsolute p then "/" else ""
  let pre := (initialSegs (pathComponents p)).map (fun cs => root ++ joinComps cs)
  { fs with dirs := fs.dirs ++ pre }

/-- Directory existence.  "." and "/" (no components) always exist. -/
def FS.dirExists (fs : FS) (p : String) : Prop :=
  pathComponents p = [] ∨ normPath p ∈ fs.dirs

instance (fs : FS) (p : String) : Decidable (fs.dirExists p) :=
  inferInstanceAs (Decidable (pathComponents p = [] ∨ normPath p ∈ fs.dirs))

/-- Content of the file at a path, if it exists. -/
def FS.fileContent (fs : FS) (p : String) : Option (List Nat) :=
  lookupA fs.files (normPath p)

/-- `path.exists()` for a file target. -/
def FS.fileExists (fs : FS) (p : String) : Bool :=
  (fs.fileContent p).isSome

/-- Write a file (the effect of a completed `urlretrieve`). -/
def FS.writeFile (fs : FS) (p : String) (bs : List Nat) : FS :=
  { fs with files := (normPath p, bs) :: fs.files }

/-- Observable events of a run. -/
inductive Event where
  | mkdir (path : String)
  | net (url : String)
  | spawn (cmd : List String) (env : List (String × String))
deriving DecidableEq

/-- World state threaded through the script: filesystem, stdout lines,
stderr lines, event trace. -/
structure World where
  fs : FS
  out : List String
  err : List String
  trace : List Event
deriving DecidableEq

/-- Network behaviour: URL to `some bytes` (success) or `none`
(transport error); an unlisted URL is also a transport error. -/
abbrev Net : Type := List (String × Option (List Nat))

/-- One retrieval attempt against the network. -/
def netFetch (net : Net) (url : String) : Option (List Nat) :=
  (lookupA net url).getD none

/-- Python exceptions that arise in this script. -/
inductive PyErr where
  | transport (url : String)
  | calledProcess (code : Int)
deriving DecidableEq

/-- Process environment as an association list (insertion order kept,
as `os.environ` iteration order is). -/
abbrev Env : Type := List (String × String)

/-- `dict.setdefault k v`: add the binding only if the key is absent. -/
def setdefault (env : Env) (k v : String) : Env :=
  match lookupA env k with
  | some _ => env
  | none => env ++ [(k, v)]

/-- Behaviour of the spawned child process: exit code as a function of
command line and environment. -/
abbrev ChildBehavior : Type := List String → Env → Int

def skipMsg (target : String) : String :=
  "✔ " ++ pathName target ++ " already exists, skipping download."

def downloadingMsg (url target : String) : String :=
  "⬇ Downloading " ++ url ++ " -> " ++ target ++ " ..."

def downloadedMsg (target : String) (size : Nat) : String :=
  "✔ Downloaded " ++ pathName target ++ " (" ++ toString size ++ " bytes)."

/-- `download(url, target)` from build_tiles.py lines 28-35: create the
target's parent directory, skip with a message if the target exists,
otherwise retrieve the URL to the target (a transport error
propagates) and report completion. -/
def download (net : Net) (url : String) (target : String) (w : World) :
    World × Except PyErr Unit :=
  let w1 : World := { w with fs := w.fs.mkdirAll (pathParent target),
                             trace := w.trace ++ [Event.mkdir (pathParent target)] }
  if w1.fs.fileExists target then
    ({ w1 with out := w1.out ++ [skipMsg target] }, Except.ok ())
  else
    let w2 : World := { w1 with out := w1.out ++ [downloadingMsg url target],
                                trace := w1.trace ++ [Event.net url] }
    match netFetch net url with
    | none => (w2, Except.error (PyErr.transport url))
    | some bs =>
      ({ w2 with fs := w2.fs.writeFile target bs,
                 out := w2.out ++ [downloadedMsg target bs.length] },
       Except.ok ())

/-- Module-level constant `PLANETILER_VERSION`. -/
def PLANETILER_VERSION : String := "0.9.3"

/-- Module-level constant `PLANETILER_JAR_URL`. -/
def PLANETILER_JAR_URL : String :=
  "https://github.com/onthegomap/planetiler/releases/download/v" ++
    PLANETILER_VERSION ++ "/planetiler.jar"

/-- Module-level constant `OSM_PBF_URL`. -/
def OSM_PBF_URL : String :=
  "https://download.geofabrik.de/asia/israel-and-palestine-latest.osm.pbf"

/-- Module-level constant `DEFAULT_BOUNDS`. -/
def DEFAULT_BOUNDS : String := "34.0,29.0,36.0,34.0"

/-- `argparse.Namespace` after parsing (plus the `osm_pbf` attribute
that `main` assigns before calling `run_planetiler`). -/
structure Args where
  data_dir : String
  osm_url : String
  planetiler_url : String
  output : String
  min_zoom : Int
  max_zoom : Int
  bounds : String
  heap : String
  tmp_dir : String
  osm_pbf : String
deriving DecidableEq

/-- Caller-supplied command-line overrides; `none` means the flag was
not given.  The zoom overrides are `Int` because `argparse`'s
`type=int` has already applied integer syntax; all other flags are
taken as raw strings. -/
structure Overrides where
  data_dir : Option String := none
  osm_url : Option String := none
  planetiler_url : Option String := none
  output : Option String := none
  min_zoom : Option Int := none
  max_zoom : Option Int := none
  bounds : Option String := none
  heap : Option String := none
  tmp_dir : Option String := none
deriving DecidableEq

/-- `parse_args()` from build_tiles.py lines 63-109: each option falls
back to its declared default; no further validation of any value. -/
def parse_args (o : Overrides) : Args :=
  { data_dir := o.data_dir.getD "data"
    osm_url := o.osm_url.getD OSM_PBF_URL
    planetiler_url := o.planetiler_url.getD PLANETILER_JAR_URL
    output := o.output.getD "build/israel-palestine.mbtiles"
    min_zoom := o.min_zoom.getD 0
    max_zoom := o.max_zoom.getD 15
    bounds := o.bounds.getD DEFAULT_BOUNDS
    heap := o.heap.getD "12G"
    tmp_dir := o.tmp_dir.getD "tmp"
    osm_pbf := "" }

/-- The `cmd` list built in `run_planetiler` (build_tiles.py lines
39-54), element for element. -/
def buildCmd (jar : String) (a : Args) : List String :=
  ["java",
   "-Xmx" ++ a.heap,
   "-jar",
   jar,
   "--osm-path=" ++ a.osm_pbf,
   "--mbtiles=" ++ a.output,
   "--download=true",
   "--min-zoom=" ++ toString a.min_zoom,
   "--max-zoom=" ++ toString a.max_zoom,
   "--bounds=" ++ a.bounds,
   "--languages=he,ar,en",
   "--name=Israel/Palestine Compact",
   "--description=High-zoom compact tiles for Israel and Palestine",
   "--tmp=" ++ a.tmp_dir]

/-- The child environment: `os.environ.copy()` then
`env.setdefault("JAVA_TOOL_OPTIONS", "-XX:+UseG1GC")` (lines 56-57). -/
def spawnEnv (env : Env) : Env :=
  setdefault env "JAVA_TOOL_OPTIONS" "-XX:+UseG1GC"

def runMsg (cmd : List String) : String :=
  "🚀 Running Planetiler:\n " ++ String.intercalate " " cmd

/-- `run_planetiler(jar, args)` (lines 38-60): build the command line,
derive the child environment, print the command, spawn the child and
block; a non-zero exit code becomes a `CalledProcessError` carrying
that code (`subprocess.run(..., check=True)`). -/
def run_planetiler (child : ChildBehavior) (env : Env) (jar : String)
    (a : Args) (w : World) : World × Except PyErr Unit :=
  let cmd := buildCmd jar a
  let env2 := spawnEnv env
  let w1 : World := { w with out := w.out ++ [runMsg cmd],
                             trace := w.trace ++ [Event.spawn cmd env2] }
  let code := child cmd env2
  if code = 0 then (w1, Except.ok ())
  else (w1, Except.error (PyErr.calledProcess code))

/-- `planetiler_path = args.data_dir / Path(args.planetiler_url).name`
(lines 115-116). -/
def planetilerPath (a : Args) : String :=
  joinPath a.data_dir (pathName a.planetiler_url)

/-- `osm_path = args.data_dir / "israel-palestine.osm.pbf"` (line 117). -/
def osmPath (a : Args) : String :=
  joinPath a.data_dir "israel-palestine.osm.pbf"

/-- The two download calls of `main` (lines 119-120), in order: the
Planetiler jar, then the OSM extract; the first failure aborts. -/
def mainDownloads (net : Net) (a : Args) (w : World) :
    World × Except PyErr Unit :=
  match download net a.planetiler_url (planetilerPath a) w with
  | (w1, Except.error e) => (w1, Except.error e)
  | (w1, Except.ok ()) => download net a.osm_url (osmPath a) w1

/-- `main()` (lines 112-126): parse, download both artifacts, set
`args.osm_pbf`, create the output's parent directory and the scratch
directory, and invoke Planetiler. -/
def pyMain (net : Net) (child : ChildBehavior) (env : Env)
    (o : Overrides) (w : World) : World × Except PyErr Unit :=
  let a := parse_args o
  match mainDownloads net a w with
  | (w1, Except.error e) => (w1, Except.error e)
  | (w1, Except.ok ()) =>
    let a2 : Args := { a with osm_pbf := osmPath a }
    let w2 : World :=
      { w1 with fs := (w1.fs.mkdirAll (pathParent a.output)).mkdirAll a.tmp_dir,
                trace := w1.trace ++ [Event.mkdir (pathParent a.output),
                                      Event.mkdir a.tmp_dir] }
    run_planetiler child env (planetilerPath a) a2 w2

/-- Final status of the whole process. -/
inductive Outcome where
  | exited (code : Int)
  | uncaught (e : PyErr)
deriving DecidableEq

/-- The stderr diagnostic of the `__main__` handler (line 133). -/
def cpMsg (n : Int) : String :=
  "Planetiler failed with exit code " ++ toString n

/-- The `__main__` guard (lines 129-134): run `main`; catch only
`CalledProcessError`, print the diagnostic to stderr and exit with the
child's code; any other exception is uncaught (abnormal termination);
falling through exits 0. -/
def topLevel (net : Net) (child : ChildBehavior) (env : Env)
    (o : Overrides) (w : World) : World × Outcome :=
  match pyMain net child env o w with
  | (w1, Except.ok ()) => (w1, Outcome.exited 0)
  | (w1, Except.error (PyErr.calledProcess n)) =>
      ({ w1 with err := w1.err ++ [cpMsg n] }, Outcome.exited n)
  | (w1, Except.error e) => (w1, Outcome.uncaught e)

/-- Is `p` an initial run of `s`?  (Spec-side notion used to count
flag occurrences in a command line.) -/
def isLead : List Char → List Char → Bool
  | [], _ => true
  | _ :: _, [] => false
  | a :: as, b :: bs => if a = b then isLead as bs else false

/-- An argv element is an occurrence of `flag` when it starts with the
flag text (e.g. "--bounds=..."). -/
def hasFlag (flag arg : String) : Bool :=
  isLead flag.data arg.data

/-- Number of occurrences of a flag in a command line. -/
def flagCount (flag : String) (cmd : List String) : Nat :=
  cmd.countP (hasFlag flag)

instance : DecidableEq (Except PyErr Unit) := fun a b => by
  cases a with
  | ok u =>
    cases b with
    | ok v => exact isTrue (by cases u; cases v; rfl)
    | error f => exact isFalse (by intro h; cases h)
  | error e =>
    cases b with
    | ok v => exact isFalse (by intro h; cases h)
    | error f =>
      exact if h : e = f then isTrue (by rw [h]) else
        isFalse (by intro hh; cases hh; exact h rfl)

/-- Overrides `o` with the two zoom flags, the bounds flag and the heap
flag all supplied by the caller. -/
def withTuning (o : Overrides) (mz Mz : Int) (bounds heap : String) : Overrides :=
  { o with min_zoom := some mz, max_zoom := some Mz, bounds := some bounds, heap := some heap }

/-- Empty initial world for concrete runs. -/
def w0 : World := { fs := { dirs := [], files := [] }, out := [], err := [], trace := [] }

/-- Concrete overrides with short URLs for concrete runs. -/
def oW : Overrides := { planetiler_url := some "u1", osm_url := some "u2" }

/-- Concrete overrides whose scratch directory coincides with the
cache directory. -/
def oC : Overrides :=
  { planetiler_url := some "u1", osm_url := some "u2", tmp_dir := some "data" }

/-- Network serving both concrete URLs. -/
def netW : Net := [("u1", some [1]), ("u2", some [2])]

/-- A child process that exits with code 3. -/
def childW : ChildBehavior := fun _ _ => 3

/-- A child process that exits with code 0. -/
def childZ : ChildBehavior := fun _ _ => 0

/-- World whose filesystem already holds the file data/f. -/
def wC2 : World :=
  { fs := { dirs := [], files := [("data/f", [7])] }, out := [], err := [], trace := [] }

/-- Environment without JAVA_TOOL_OPTIONS. -/
def envA : Env := [("PATH", "/bin")]

/-- Environment in which the caller already set JAVA_TOOL_OPTIONS. -/
def envB : Env := [("JAVA_TOOL_OPTIONS", "-Xss1M")]

/-- Network whose one resource is empty (zero bytes). -/
def net8e : Net := [("u", some [])]

/-- Network whose one resource is the single byte 1. -/
def net8w : Net := [("u", some [1])]

theorem download_err (net : Net) (url target : String) (w : World) :
    ((download net url target w).1).err = w.err := by
  simp only [download]
  split
  · rfl
  · split <;> rfl

theorem run_planetiler_err (child : ChildBehavior) (env : Env) (jar : String)
    (a : Args) (w : World) :
    ((run_planetiler child env jar a w).1).err = w.err := by
  simp only [run_planetiler]
  split <;> rfl

theorem run_planetiler_fs (child : ChildBehavior) (env : Env) (jar : String)
    (a : Args) (w : World) :
    ((run_planetiler child env jar a w).1).fs = w.fs := by
  simp only [run_planetiler]
  split <;> rfl

theorem run_planetiler_trace (child : ChildBehavior) (env : Env) (jar : String)
    (a : Args) (w : World) :
    ((run_planetiler child env jar a w).1).trace =
      w.trace ++ [Event.spawn (buildCmd jar a) (spawnEnv env)] := by
  simp only [run_planetiler]
  split <;> rfl

theorem mainDownloads_err (net : Net) (a : Args) (w : World) :
    ((mainDownloads net a w).1).err = w.err := by
  simp only [mainDownloads]
  split
  · rename_i w1 e heq
    have h := download_err net a.planetiler_url (planetilerPath a) w
    rw [heq] at h
    exact h
  · rename_i w1 heq
    have h := download_err net a.planetiler_url (planetilerPath a) w
    rw [heq] at h
    rw [download_err net a.osm_url (osmPath a) w1]
    exact h

theorem pyMain_err (net : Net) (child : ChildBehavior) (env : Env)
    (o : Overrides) (w : World) :
    ((pyMain net child env o w).1).err = w.err := by
  simp only [pyMain]
  split
  · rename_i w1 e heq
    have h := mainDownloads_err net (parse_args o) w
    rw [heq] at h
    exact h
  · rename_i w1 heq
    have h := mainDownloads_err net (parse_args o) w
    rw [heq] at h
    rw [run_planetiler_err]
    exact h

theorem mem_initialSegs_self (cs : List String) (h : cs ≠ []) :
    cs ∈ initialSegs cs := by
  induction cs with
  | nil => exact absurd rfl h
  | cons c rest ih =>
    cases rest with
    | nil => simp [initialSegs]
    | cons d rs =>
      have h2 : d :: rs ∈ initialSegs (d :: rs) := ih (by simp)
      simp only [initialSegs, List.mem_cons]
      right
      rw [List.mem_map]
      exact ⟨d :: rs, h2, rfl⟩

theorem mkdirAll_dirExists (fs : FS) (p : String) :
    (fs.mkdirAll p).dirExists p := by
  unfold FS.dirExists
  by_cases h : pathComponents p = []
  · exact Or.inl h
  · right
    show normPath p ∈ (fs.mkdirAll p).dirs
    simp only [FS.mkdirAll, List.mem_append]
    right
    rw [List.mem_map]
    exact ⟨pathComponents p, mem_initialSegs_self _ h, rfl⟩

theorem mkdirAll_mono (fs : FS) (p q : String) (h : fs.dirExists p) :
    (fs.mkdirAll q).dirExists p := by
  unfold FS.dirExists at h ⊢
  cases h with
  | inl h => exact Or.inl h
  | inr h =>
    right
    simp only [FS.mkdirAll, List.mem_append]
    exact Or.inl h

theorem writeFile_dirExists (fs : FS) (q : String) (bs : List Nat) (p : String) :
    (fs.writeFile q bs).dirExists p ↔ fs.dirExists p := Iff.rfl

theorem lookupA_append_last {α : Type} (l : List (String × α)) (key0 k : String)
    (v : α) (h : key0 ≠ k) :
    lookupA (l ++ [(key0, v)]) k = lookupA l k := by
  induction l with
  | nil => simp [lookupA, h]
  | cons hd tl ih =>
    cases hd with
    | mk k2 v2 =>
      simp only [List.cons_append, lookupA]
      split
      · rfl
      · exact ih

theorem lookupA_append_self {α : Type} (l : List (String × α)) (key0 : String)
    (v : α) (h : lookupA l key0 = none) :
    lookupA (l ++ [(key0, v)]) key0 = some v := by
  induction l with
  | nil => simp [lookupA]
  | cons hd tl ih =>
    cases hd with
    | mk k2 v2 =>
      simp only [lookupA] at h
      simp only [List.cons_append, lookupA]
      split
      · rename_i hk
        rw [if_pos hk] at h
        cases h
      · rename_i hk
        rw [if_neg hk] at h
        exact ih h

/-- C1: when the child process exits with a non-zero code n, the top
level catches the `CalledProcessError`, prints a diagnostic naming n to
stderr and the process exits with exactly n; when the child exits with
0 (`main` completes), the process exits with 0 and stderr is left
untouched (no diagnostic is printed anywhere in `main`). -/
theorem c1_exit_code_transparency (net : Net) (child : ChildBehavior) (env : Env)
    (o : Overrides) (w : World) (n : Int) :
    ((pyMain net child env o w).2 = Except.error (PyErr.calledProcess n) →
      (topLevel net child env o w).2 = Outcome.exited n ∧
      cpMsg n ∈ ((topLevel net child env o w).1).err) ∧
    ((pyMain net child env o w).2 = Except.ok () →
      (topLevel net child env o w).2 = Outcome.exited 0 ∧
      ((topLevel net child env o w).1).err = w.err) := by
  have herr := pyMain_err net child env o w
  unfold topLevel
  cases hp : pyMain net child env o w with
  | mk w1 r =>
    rw [hp] at herr
    constructor
    · intro h
      simp only at h
      subst h
      simp
    · intro h
      simp only at h
      subst h
      simpa using herr

/-- C1 witness: with a child stub exiting 3 the whole process exits 3
and the diagnostic naming 3 is on stderr; with a child stub exiting 0
the process exits 0 and stderr is unchanged. -/
theorem c1_exit_code_transparency_witness :
    ((topLevel netW childW [] oW w0).2 = Outcome.exited 3 ∧
      cpMsg 3 ∈ ((topLevel netW childW [] oW w0).1).err) ∧
    ((topLevel netW childZ [] oW w0).2 = Outcome.exited 0 ∧
      ((topLevel netW childZ [] oW w0).1).err = w0.err) :=
  ⟨(c1_exit_code_transparency netW childW [] oW w0 3).1 rfl,
   (c1_exit_code_transparency netW childZ [] oW w0 0).2 rfl⟩

/-- C2: when the destination already exists, `download` succeeds, no
network retrieval event occurs (the only event is the parent-directory
mkdir), and every file's bytes — in particular the destination's — are
unchanged; the result does not depend on the cached content (no
integrity check), as the statement holds for every `w`. -/
theorem c2_cache_hit (net : Net) (url target : String) (w : World)
    (h : w.fs.fileExists target = true) :
    (download net url target w).2 = Except.ok () ∧
    ((download net url target w).1).fs.files = w.fs.files ∧
    ((download net url target w).1).trace = w.trace ++ [Event.mkdir (pathParent target)] := by
  have hx : (w.fs.mkdirAll (pathParent target)).fileExists target = true := h
  simp only [download]
  rw [if_pos hx]
  exact ⟨rfl, rfl, rfl⟩

/-- C2 witness: a concrete cache hit for a URL the network does not
even serve succeeds without touching files or the network. -/
theorem c2_cache_hit_witness :
    wC2.fs.fileExists "data/f" = true ∧
    (download netW "u9" "data/f" wC2).2 = Except.ok () ∧
    ((download netW "u9" "data/f" wC2).1).fs.files = wC2.fs.files ∧
    ((download netW "u9" "data/f" wC2).1).trace =
      wC2.trace ++ [Event.mkdir (pathParent "data/f")] := by
  have h := c2_cache_hit netW "u9" "data/f" wC2 rfl
  exact ⟨rfl, h.1, h.2.1, h.2.2⟩

/-- C3: the constructed command line is exactly the fixed 14-element
list in fixed order (all flags unconditionally present, including
--download=true, the three-language list and the hardcoded literal
name/description strings); among the arguments after the jar
positional, each of the five value-carrying flags occurs exactly once
and carries the resolved configuration value verbatim. -/
theorem c3_command_line (jar : String) (a : Args) :
    buildCmd jar a =
      ["java", "-Xmx" ++ a.heap, "-jar", jar,
       "--osm-path=" ++ a.osm_pbf, "--mbtiles=" ++ a.output, "--download=true",
       "--min-zoom=" ++ toString a.min_zoom, "--max-zoom=" ++ toString a.max_zoom,
       "--bounds=" ++ a.bounds, "--languages=he,ar,en",
       "--name=Israel/Palestine Compact",
       "--description=High-zoom compact tiles for Israel and Palestine",
       "--tmp=" ++ a.tmp_dir] ∧
    flagCount "--osm-path=" ((buildCmd jar a).drop 4) = 1 ∧
    flagCount "--mbtiles=" ((buildCmd jar a).drop 4) = 1 ∧
    flagCount "--min-zoom=" ((buildCmd jar a).drop 4) = 1 ∧
    flagCount "--max-zoom=" ((buildCmd jar a).drop 4) = 1 ∧
    flagCount "--bounds=" ((buildCmd jar a).drop 4) = 1 ∧
    ("--osm-path=" ++ a.osm_pbf) ∈ buildCmd jar a ∧
    ("--mbtiles=" ++ a.output) ∈ buildCmd jar a ∧
    ("--min-zoom=" ++ toString a.min_zoom) ∈ buildCmd jar a ∧
    ("--max-zoom=" ++ toString a.max_zoom) ∈ buildCmd jar a ∧
    ("--bounds=" ++ a.bounds) ∈ buildCmd jar a ∧
    "--download=true" ∈ buildCmd jar a ∧
    "--languages=he,ar,en" ∈ buildCmd jar a ∧
    "--name=Israel/Palestine Compact" ∈ buildCmd jar a ∧
    "--description=High-zoom compact tiles for Israel and Palestine" ∈ buildCmd jar a := by
  refine ⟨rfl, rfl, rfl, rfl, rfl, rfl, ?_, ?_, ?_, ?_, ?_, ?_, ?_, ?_, ?_⟩ <;> simp [buildCmd]

/-- C4 (amended): whenever both downloads succeed, `main` issues its
two dedicated mkdir calls (output parent, then scratch directory)
strictly after the whole download phase and immediately before the
spawn, the filesystem at the spawn is exactly the post-download
filesystem plus those two directories, and both directories exist in
it.  (The claim's stronger "created only after both downloads" fails
when a directory coincides with a download target's parent; see the
counterexample.) -/
theorem c4_dirs_after_downloads (net : Net) (child : ChildBehavior) (env : Env)
    (o : Overrides) (w w1 : World)
    (h : mainDownloads net (parse_args o) w = (w1, Except.ok ())) :
    ((pyMain net child env o w).1).fs =
      (w1.fs.mkdirAll (pathParent (parse_args o).output)).mkdirAll (parse_args o).tmp_dir ∧
    ((pyMain net child env o w).1).trace =
      w1.trace ++ [Event.mkdir (pathParent (parse_args o).output),
                   Event.mkdir (parse_args o).tmp_dir,
                   Event.spawn
                     (buildCmd (planetilerPath (parse_args o))
                       { parse_args o with osm_pbf := osmPath (parse_args o) })
                     (spawnEnv env)] ∧
    ((w1.fs.mkdirAll (pathParent (parse_args o).output)).mkdirAll (parse_args o).tmp_dir).dirExists
      (pathParent (parse_args o).output) ∧
    ((w1.fs.mkdirAll (pathParent (parse_args o).output)).mkdirAll (parse_args o).tmp_dir).dirExists
      (parse_args o).tmp_dir := by
  simp only [pyMain]
  rw [h]
  refine ⟨?_, ?_, ?_, ?_⟩
  · rw [run_planetiler_fs]
  · rw [run_planetiler_trace]
    simp
  · exact mkdirAll_mono _ _ _ (mkdirAll_dirExists w1.fs _)
  · exact mkdirAll_dirExists _ _

/-- C4 counterexample: with the scratch directory overridden to the
cache directory "data", the very first event of the run already
creates the scratch directory — before the second download's network
retrieval — so the scratch directory is not created only after both
downloads have succeeded. -/
theorem c4_counterexample :
    (parse_args oC).tmp_dir = "data" ∧
    ((pyMain netW childW [] oC w0).1).trace.take 1 = [Event.mkdir "data"] ∧
    Event.net "u2" ∈ ((pyMain netW childW [] oC w0).1).trace := by
  exact ⟨rfl, rfl, by decide⟩

/-- C4 witness: both directories exist in the filesystem reached just
before the spawn on a concrete successful run. -/
theorem c4_dirs_after_downloads_witness :
    ((((mainDownloads netW (parse_args oW) w0).1).fs.mkdirAll
        (pathParent (parse_args oW).output)).mkdirAll (parse_args oW).tmp_dir).dirExists
      (pathParent (parse_args oW).output) ∧
    ((((mainDownloads netW (parse_args oW) w0).1).fs.mkdirAll
        (pathParent (parse_args oW).output)).mkdirAll (parse_args oW).tmp_dir).dirExists
      (parse_args oW).tmp_dir := by
  have h := c4_dirs_after_downloads netW childW [] oW w0
    ((mainDownloads netW (parse_args oW) w0).1) rfl
  exact ⟨h.2.2.1, h.2.2.2⟩

/-- C5: the child environment recorded in the spawn event is
`spawnEnv env`: every key other than JAVA_TOOL_OPTIONS looks up
exactly as in the caller's environment; if the caller set
JAVA_TOOL_OPTIONS the environment is entirely unchanged (no override);
if not, the one binding JAVA_TOOL_OPTIONS = -XX:+UseG1GC is appended. -/
theorem c5_env_augmentation (child : ChildBehavior) (env : Env) (jar : String)
    (a : Args) (w : World) :
    ((run_planetiler child env jar a w).1).trace =
      w.trace ++ [Event.spawn (buildCmd jar a) (spawnEnv env)] ∧
    (∀ k, k ≠ "JAVA_TOOL_OPTIONS" → lookupA (spawnEnv env) k = lookupA env k) ∧
    (∀ v, lookupA env "JAVA_TOOL_OPTIONS" = some v → spawnEnv env = env) ∧
    (lookupA env "JAVA_TOOL_OPTIONS" = none →
      spawnEnv env = env ++ [("JAVA_TOOL_OPTIONS", "-XX:+UseG1GC")] ∧
      lookupA (spawnEnv env) "JAVA_TOOL_OPTIONS" = some "-XX:+UseG1GC") := by
  refine ⟨run_planetiler_trace child env jar a w, ?_, ?_, ?_⟩
  · intro k hk
    unfold spawnEnv setdefault
    cases he : lookupA env "JAVA_TOOL_OPTIONS" with
    | some v => rfl
    | none =>
      exact lookupA_append_last env "JAVA_TOOL_OPTIONS" k "-XX:+UseG1GC" (fun hh => hk hh.symm)
  · intro v hv
    unfold spawnEnv setdefault
    rw [hv]
  · intro hn
    constructor
    · unfold spawnEnv setdefault
      rw [hn]
    · unfold spawnEnv setdefault
      rw [hn]
      exact lookupA_append_self env "JAVA_TOOL_OPTIONS" "-XX:+UseG1GC" hn

/-- C5 witness: a pre-existing variable survives; the tuning variable
is added when absent and left alone when the caller set it. -/
theorem c5_env_augmentation_witness :
    lookupA (spawnEnv envA) "PATH" = some "/bin" ∧
    lookupA (spawnEnv envA) "JAVA_TOOL_OPTIONS" = some "-XX:+UseG1GC" ∧
    spawnEnv envB = envB := by
  have hA := c5_env_augmentation childW envA "j" (parse_args {}) w0
  have hB := c5_env_augmentation childW envB "j" (parse_args {}) w0
  refine ⟨?_, (hA.2.2.2 rfl).2, hB.2.2.1 "-Xss1M" rfl⟩
  rw [hA.2.1 "PATH" (by decide)]
  rfl

/-- C6: a transport error raised during a retrieval propagates out of
`main` uncaught: the process terminates abnormally (an uncaught
exception, not a `sys.exit`), and the top-level handler — which
catches only child-process exit failures — prints nothing to stderr. -/
theorem c6_transport_uncaught (net : Net) (child : ChildBehavior) (env : Env)
    (o : Overrides) (w : World) (u : String)
    (h : (pyMain net child env o w).2 = Except.error (PyErr.transport u)) :
    (topLevel net child env o w).2 = Outcome.uncaught (PyErr.transport u) ∧
    ((topLevel net child env o w).1).err = w.err := by
  have herr := pyMain_err net child env o w
  unfold topLevel
  cases hp : pyMain net child env o w with
  | mk w1 r =>
    rw [hp] at herr
    rw [hp] at h
    simp only at h
    subst h
    simpa using herr

/-- C6 witness: an empty network makes the first retrieval fail and
the whole run end as an uncaught transport error with stderr
untouched. -/
theorem c6_transport_uncaught_witness :
    (topLevel [] childW [] oW w0).2 = Outcome.uncaught (PyErr.transport "u1") ∧
    ((topLevel [] childW [] oW w0).1).err = w0.err :=
  c6_transport_uncaught [] childW [] oW w0 "u1" rfl

/-- C7: with no overrides the resolved configuration defaults are
bounds "34.0,29.0,36.0,34.0", zoom range 0..15 and heap "12G"; for
every configuration the tool artifact cache path is the cache
directory joined with the final path component of the tool URL and the
data artifact cache path is the cache directory joined with the one
literal filename "israel-palestine.osm.pbf", independent of the data
URL; on the default tool URL the final component is "planetiler.jar". -/
theorem c7_defaults_and_derived_paths :
    (parse_args {}).bounds = "34.0,29.0,36.0,34.0" ∧
    (parse_args {}).min_zoom = 0 ∧
    (parse_args {}).max_zoom = 15 ∧
    (parse_args {}).heap = "12G" ∧
    (∀ a : Args, planetilerPath a = joinPath a.data_dir (pathName a.planetiler_url)) ∧
    (∀ a : Args, osmPath a = joinPath a.data_dir "israel-palestine.osm.pbf") ∧
    (∀ a : Args, ∀ u : String, osmPath { a with osm_url := u } = osmPath a) ∧
    pathName (parse_args {}).planetiler_url = "planetiler.jar" ∧
    planetilerPath (parse_args {}) = "data/planetiler.jar" ∧
    osmPath (parse_args {}) = "data/israel-palestine.osm.pbf" := by
  exact ⟨rfl, rfl, rfl, rfl, fun a => rfl, fun a => rfl, fun a u => rfl, rfl, rfl, rfl⟩

/-- C8 (amended): for a destination that does not yet exist, a
successful fetch makes the destination exist with exactly the
retrieved bytes; the file is therefore non-empty whenever the
retrieved resource is non-empty (but an empty resource yields an
empty cached file; see the counterexample). -/
theorem c8_fetch_creates_file (net : Net) (url target : String) (w : World) (bs : List Nat)
    (h0 : w.fs.fileExists target = false)
    (h1 : netFetch net url = some bs) :
    (download net url target w).2 = Except.ok () ∧
    ((download net url target w).1).fs.fileContent target = some bs ∧
    ((download net url target w).1).fs.fileExists target = true ∧
    (bs ≠ [] → ((download net url target w).1).fs.fileContent target ≠ some []) := by
  have h0x : (w.fs.mkdirAll (pathParent target)).fileExists target = false := h0
  simp only [download]
  rw [if_neg (by rw [h0x]; exact Bool.false_ne_true)]
  rw [h1]
  have hc : ((w.fs.mkdirAll (pathParent target)).writeFile target bs).fileContent target
      = some bs := by
    unfold FS.writeFile FS.fileContent
    simp [lookupA]
  refine ⟨rfl, hc, ?_, ?_⟩
  · unfold FS.fileExists
    rw [hc]
    rfl
  · intro hne hcon
    rw [hc] at hcon
    exact hne (Option.some_injective _ hcon)

/-- C8 counterexample: a successful fetch of a zero-byte resource to a
previously absent destination leaves an existing but empty file, so
"the file at it is non-empty" is false as stated. -/
theorem c8_counterexample :
    w0.fs.fileExists "data/f" = false ∧
    (download net8e "u" "data/f" w0).2 = Except.ok () ∧
    ((download net8e "u" "data/f" w0).1).fs.fileExists "data/f" = true ∧
    ((download net8e "u" "data/f" w0).1).fs.fileContent "data/f" = some [] := by
  exact ⟨rfl, rfl, rfl, rfl⟩

/-- C8 witness: fetching a one-byte resource to an absent destination
creates a non-empty file holding exactly that byte. -/
theorem c8_fetch_creates_file_witness :
    (download net8w "u" "data/g" w0).2 = Except.ok () ∧
    ((download net8w "u" "data/g" w0).1).fs.fileContent "data/g" = some [1] ∧
    ((download net8w "u" "data/g" w0).1).fs.fileExists "data/g" = true ∧
    ((download net8w "u" "data/g" w0).1).fs.fileContent "data/g" ≠ some [] := by
  have h := c8_fetch_creates_file net8w "u" "data/g" w0 [1] rfl rfl
  exact ⟨h.1, h.2.1, h.2.2.1, h.2.2.2 (by decide)⟩

/-- C9: on every call — cache hit or not, transport error or not —
`download` first creates the destination's parent directory: the mkdir
event is in the trace and the directory exists afterwards. -/
theorem c9_parent_dir_always_created (net : Net) (url target : String) (w : World) :
    ((download net url target w).1).fs.dirExists (pathParent target) ∧
    Event.mkdir (pathParent target) ∈ ((download net url target w).1).trace := by
  simp only [download]
  split
  · exact ⟨mkdirAll_dirExists w.fs (pathParent target), by simp⟩
  · split
    · exact ⟨mkdirAll_dirExists w.fs (pathParent target), by simp⟩
    · refine ⟨?_, by simp⟩
      rw [writeFile_dirExists]
      exact mkdirAll_dirExists w.fs (pathParent target)

/-- C10: configuration parsing imposes no constraint beyond the
integer typing of the zoom flags (already applied in `Overrides`) and
none on the bounds or heap strings: resolution is total, the resolved
values are exactly the supplied ones — negative zooms and an inverted
zoom pair included — and each value is embedded verbatim in the child
command line. -/
theorem c10_no_validation (mz Mz : Int) (bounds heap : String) (o : Overrides) (jar : String) :
    (parse_args (withTuning o mz Mz bounds heap)).min_zoom = mz ∧
    (parse_args (withTuning o mz Mz bounds heap)).max_zoom = Mz ∧
    (parse_args (withTuning o mz Mz bounds heap)).bounds = bounds ∧
    (parse_args (withTuning o mz Mz bounds heap)).heap = heap ∧
    ("--min-zoom=" ++ toString mz) ∈ buildCmd jar (parse_args (withTuning o mz Mz bounds heap)) ∧
    ("--max-zoom=" ++ toString Mz) ∈ buildCmd jar (parse_args (withTuning o mz Mz bounds heap)) ∧
    ("--bounds=" ++ bounds) ∈ buildCmd jar (parse_args (withTuning o mz Mz bounds heap)) ∧
    ("-Xmx" ++ heap) ∈ buildCmd jar (parse_args (withTuning o mz Mz bounds heap)) ∧
    (parse_args (withTuning {} 9 (-2) DEFAULT_BOUNDS "12G")).min_zoom = 9 ∧
    (parse_args (withTuning {} 9 (-2) DEFAULT_BOUNDS "12G")).max_zoom = -2 := by
  refine ⟨rfl, rfl, rfl, rfl, ?_, ?_, ?_, ?_, rfl, rfl⟩ <;> simp [buildCmd, parse_args, withTuning]
